import Mathlib

/-!
Shallow embedding of the task-completion tracking code of the suno-api
repository (`generate_trap_polling.py`, `generate_hard_trap.py`, `r2r.py`),
with theorems settling the claims about its specification.

HTTP traffic is modelled by explicit response sequences (`Nat → PollHTTP`),
wall-clock time by a counter advanced by the modelled `time.sleep` calls, and
the bounded `while time.time() - start_time < max_wait` loops by structural
recursion on a fuel argument that over-approximates the number of remaining
iterations (each iteration advances the clock by at least one second, so
`max_wait` units of fuel always suffice; the fuel-exhausted case coincides
with the loop-condition-false case).
-/

namespace SunoApi

/-- One produced media output, shaped as the artifact objects the scripts read
(`audio_url`, `title`, `duration`, `tags` accessed via `dict.get`). -/
structure Artifact where
  audio_url : Option String
  title : Option String
  duration : Option Nat
  tags : Option String
deriving DecidableEq, Repr

/-- The `data` object of a status-poll response body, as read by
`wait_for_completion`: `status_data.get("status")`,
`status_data.get("response", {}).get("data", [])` and
`status_data.get("errorMessage", "Unknown")`. -/
structure StatusData where
  status : Option String
  responseData : List Artifact
  errorMessage : Option String
deriving DecidableEq, Repr

/-- Outcome of one `requests.get(BASE_URL + "/generate/record-info")` call as
seen by `get_task_status`: either an exception (network error or unparseable
JSON body), or a parsed JSON body with its `code` field (`none` when absent)
and its `data` field (`none` when the `data` key is absent or empty — both
scripts' callers collapse an empty dict and `None` by Python falsiness). -/
inductive PollHTTP where
  | netError
  | reply (code : Option Int) (payload : Option StatusData)
deriving DecidableEq, Repr

/-- `SunoAPIClient.get_task_status` (generate_trap_polling.py lines 113-128 and
generate_hard_trap.py lines 173-194): a raised exception yields `None`, a body
whose `code` is not `200` yields `None`, otherwise the `data` field is
returned.  The two scripts differ only in how the non-200 case reaches the
`None` return (early return versus raise-and-catch). -/
def get_task_status : PollHTTP → Option StatusData
  | .netError => none
  | .reply code payload => if code = some 200 then payload else none

/-- Observable result of one run of a polling `wait_for_completion`:
the final outcome, the number of `get_task_status` calls issued, and the
durations of the `time.sleep` calls performed, in order. -/
inductive Outcome where
  | returned (artifacts : List Artifact)
  | exited (code : Nat) (msg : String)
deriving DecidableEq, Repr

structure RunResult where
  outcome : Outcome
  pollsUsed : Nat
  sleeps : List Nat
deriving DecidableEq, Repr

/-- Bookkeeping for one non-terminal loop iteration: the iteration issued one
`get_task_status` call and one `time.sleep(interval)` before the remainder of
the run. -/
def resumeAfter (interval : Nat) (r : RunResult) : RunResult :=
  { outcome := r.outcome, pollsUsed := r.pollsUsed + 1, sleeps := interval :: r.sleeps }

namespace TrapPolling

/-- `poll_interval = 10  # seconds` — a local constant inside
`wait_for_completion` (generate_trap_polling.py line 133); there is no
parameter through which a caller could supply it. -/
def poll_interval : Nat := 10

/-- Default of the `max_wait` parameter of `wait_for_completion`
(generate_trap_polling.py line 130); `main` calls
`client.wait_for_completion(task_id)` without overriding it. -/
def max_wait_default : Nat := 360

/-- Message printed on the `FAILED` branch before `sys.exit(1)`
(generate_trap_polling.py lines 164-166). -/
def failedExitMsg (e : String) : String := "\n❌ Generation failed: " ++ e

/-- Message printed when the while loop exhausts `max_wait` before
`sys.exit(1)` (generate_trap_polling.py line 177). -/
def timeoutExitMsg (maxWait : Nat) : String :=
  "\n❌ Timeout after " ++ toString maxWait ++ "s"

/-- The polling loop of `SunoAPIClient.wait_for_completion`
(generate_trap_polling.py lines 138-178).  `t` is the elapsed time,
`k` the index of the next poll response.  Branches, in source order:
no status data → sleep and continue; `SUCCESS` with a non-empty list →
return it; `SUCCESS` with an empty list → sleep and keep polling;
`FAILED` → `sys.exit(1)` with the error message; `PENDING`/`GENERATING` →
sleep and continue; anything else → sleep and continue. -/
def waitLoop (resp : Nat → PollHTTP) (maxWait : Nat) : Nat → Nat → Nat → RunResult
  | 0, _, _ => { outcome := .exited 1 (timeoutExitMsg maxWait), pollsUsed := 0, sleeps := [] }
  | fuel + 1, t, k =>
    if t < maxWait then
      match get_task_status (resp k) with
      | none => resumeAfter poll_interval (waitLoop resp maxWait fuel (t + poll_interval) (k + 1))
      | some sd =>
        if sd.status = some "SUCCESS" then
          if sd.responseData = [] then
            resumeAfter poll_interval (waitLoop resp maxWait fuel (t + poll_interval) (k + 1))
          else
            { outcome := .returned sd.responseData, pollsUsed := 1, sleeps := [] }
        else if sd.status = some "FAILED" then
          { outcome := .exited 1 (failedExitMsg (sd.errorMessage.getD "Unknown")),
            pollsUsed := 1, sleeps := [] }
        else if sd.status = some "PENDING" ∨ sd.status = some "GENERATING" then
          resumeAfter poll_interval (waitLoop resp maxWait fuel (t + poll_interval) (k + 1))
        else
          resumeAfter poll_interval (waitLoop resp maxWait fuel (t + poll_interval) (k + 1))
    else
      { outcome := .exited 1 (timeoutExitMsg maxWait), pollsUsed := 0, sleeps := [] }

/-- `SunoAPIClient.wait_for_completion` of the polling script, applied to a
sequence of poll-response outcomes.  `maxWait` units of fuel suffice because
every iteration advances `t` by `poll_interval = 10`. -/
def wait_for_completion (resp : Nat → PollHTTP) (maxWait : Nat) : RunResult :=
  waitLoop resp maxWait maxWait 0 0

end TrapPolling

namespace HardTrap

/-- `poll_interval = 5  # seconds` — a local constant inside
`wait_for_completion` (generate_hard_trap.py line 199). -/
def poll_interval : Nat := 5

/-- Default of the `max_wait` parameter (generate_hard_trap.py line 196). -/
def max_wait_default : Nat := 300

/-- Message printed on the `FAILED` branch before `sys.exit(1)`
(generate_hard_trap.py lines 220-222). -/
def failedExitMsg (e : String) : String := "\n❌ Generation failed: " ++ e

/-- Message printed when the loop exhausts `max_wait`
(generate_hard_trap.py line 234). -/
def timeoutExitMsg (maxWait : Nat) : String :=
  "\n❌ Timeout: Generation took longer than " ++ toString maxWait ++ " seconds"

/-- The polling loop of `SunoAPIClient.wait_for_completion` in the callback
script (generate_hard_trap.py lines 204-235).  Unlike the polling script,
the `SUCCESS` branch returns `status_data.get("response", {}).get("data", [])`
immediately, with no emptiness check. -/
def waitLoop (resp : Nat → PollHTTP) (maxWait : Nat) : Nat → Nat → Nat → RunResult
  | 0, _, _ => { outcome := .exited 1 (timeoutExitMsg maxWait), pollsUsed := 0, sleeps := [] }
  | fuel + 1, t, k =>
    if t < maxWait then
      match get_task_status (resp k) with
      | none => resumeAfter poll_interval (waitLoop resp maxWait fuel (t + poll_interval) (k + 1))
      | some sd =>
        if sd.status = some "SUCCESS" then
          { outcome := .returned sd.responseData, pollsUsed := 1, sleeps := [] }
        else if sd.status = some "FAILED" then
          { outcome := .exited 1 (failedExitMsg (sd.errorMessage.getD "Unknown")),
            pollsUsed := 1, sleeps := [] }
        else if sd.status = some "PENDING" ∨ sd.status = some "GENERATING" then
          resumeAfter poll_interval (waitLoop resp maxWait fuel (t + poll_interval) (k + 1))
        else
          resumeAfter poll_interval (waitLoop resp maxWait fuel (t + poll_interval) (k + 1))
    else
      { outcome := .exited 1 (timeoutExitMsg maxWait), pollsUsed := 0, sleeps := [] }

/-- `SunoAPIClient.wait_for_completion` of generate_hard_trap.py. -/
def wait_for_completion (resp : Nat → PollHTTP) (maxWait : Nat) : RunResult :=
  waitLoop resp maxWait maxWait 0 0

end HardTrap

/-- A poll response on which an iteration of the polling script's loop neither
returns nor exits: no usable status data, a `SUCCESS` with an empty artifact
list, or any status other than `SUCCESS`/`FAILED`. -/
def nonTerminalPoll (h : PollHTTP) : Bool :=
  match get_task_status h with
  | none => true
  | some sd =>
    if sd.status = some "SUCCESS" then sd.responseData = []
    else sd.status ≠ some "FAILED"

/-- A poll iteration that is a transient query failure or an unmapped status
string: no usable status data at all, or a status outside
`{SUCCESS, FAILED, PENDING, GENERATING}`. -/
def transientOrUnmapped (h : PollHTTP) : Bool :=
  match get_task_status h with
  | none => true
  | some sd =>
    ¬ (sd.status = some "SUCCESS" ∨ sd.status = some "FAILED" ∨
       sd.status = some "PENDING" ∨ sd.status = some "GENERATING")

theorem transientOrUnmapped_nonTerminal (h : PollHTTP)
    (ht : transientOrUnmapped h = true) : nonTerminalPoll h = true := by
  unfold transientOrUnmapped at ht
  unfold nonTerminalPoll
  cases hgs : get_task_status h with
  | none => rfl
  | some sd =>
    rw [hgs] at ht
    have ht2 : (decide ¬ (sd.status = some "SUCCESS" ∨ sd.status = some "FAILED" ∨
        sd.status = some "PENDING" ∨ sd.status = some "GENERATING")) = true := ht
    have ht' := of_decide_eq_true ht2
    push_neg at ht'
    show (if sd.status = some "SUCCESS" then decide (sd.responseData = [])
      else decide (sd.status ≠ some "FAILED")) = true
    rw [if_neg ht'.1]
    exact decide_eq_true ht'.2.1

namespace TrapPolling

theorem waitLoop_step (resp : Nat → PollHTTP) (maxWait fuel t k : Nat)
    (ht : t < maxWait) (hnt : nonTerminalPoll (resp k) = true) :
    waitLoop resp maxWait (fuel + 1) t k =
      resumeAfter poll_interval (waitLoop resp maxWait fuel (t + poll_interval) (k + 1)) := by
  unfold nonTerminalPoll at hnt
  simp only [waitLoop]
  rw [if_pos ht]
  split
  next heq => rfl
  next sd heq =>
    rw [heq] at hnt
    have hnt3 : (if sd.status = some "SUCCESS" then decide (sd.responseData = [])
        else decide (sd.status ≠ some "FAILED")) = true := hnt
    by_cases hs : sd.status = some "SUCCESS"
    · rw [if_pos hs] at hnt3 ⊢
      rw [if_pos (of_decide_eq_true hnt3)]
    · rw [if_neg hs] at hnt3 ⊢
      rw [if_neg (of_decide_eq_true hnt3)]
      rw [ite_self]

theorem waitLoop_skip (resp : Nat → PollHTTP) (maxWait : Nat) :
    ∀ (n fuel t k : Nat),
      (∀ i, i < n → nonTerminalPoll (resp (k + i)) = true) →
      (∀ i, i < n → t + poll_interval * i < maxWait) →
      n ≤ fuel →
      waitLoop resp maxWait fuel t k =
        { outcome := (waitLoop resp maxWait (fuel - n) (t + poll_interval * n) (k + n)).outcome,
          pollsUsed :=
            (waitLoop resp maxWait (fuel - n) (t + poll_interval * n) (k + n)).pollsUsed + n,
          sleeps := List.replicate n poll_interval ++
            (waitLoop resp maxWait (fuel - n) (t + poll_interval * n) (k + n)).sleeps } := by
  intro n
  induction n with
  | zero => intro fuel t k _ _ _; simp
  | succ m ih =>
    intro fuel t k hcont hsteps hfuel
    obtain ⟨f, rfl⟩ : ∃ f, fuel = f + 1 := ⟨fuel - 1, by omega⟩
    have ht : t < maxWait := by
      have := hsteps 0 (by omega)
      simpa using this
    rw [waitLoop_step resp maxWait f t k ht (by simpa using hcont 0 (by omega))]
    rw [ih f (t + poll_interval) (k + 1)
      (fun i hi => by
        have := hcont (i + 1) (by omega)
        rwa [show k + (i + 1) = k + 1 + i by omega] at this)
      (fun i hi => by
        have := hsteps (i + 1) (by omega)
        simp only [poll_interval] at this ⊢
        omega)
      (by omega)]
    have e1 : f + 1 - (m + 1) = f - m := by omega
    have e2 : t + poll_interval * (m + 1) = t + poll_interval + poll_interval * m := by ring
    have e3 : k + (m + 1) = k + 1 + m := by omega
    rw [e1, e2, e3]
    simp only [resumeAfter, List.replicate_succ, List.cons_append, RunResult.mk.injEq]
    exact ⟨trivial, by omega, trivial⟩

theorem waitLoop_success (resp : Nat → PollHTTP) (maxWait fuel t k : Nat) (sd : StatusData)
    (hfuel : 0 < fuel) (ht : t < maxWait)
    (hgs : get_task_status (resp k) = some sd)
    (hs : sd.status = some "SUCCESS") (hne : sd.responseData ≠ []) :
    waitLoop resp maxWait fuel t k =
      { outcome := .returned sd.responseData, pollsUsed := 1, sleeps := [] } := by
  obtain ⟨f, rfl⟩ : ∃ f, fuel = f + 1 := ⟨fuel - 1, by omega⟩
  simp only [waitLoop]
  rw [if_pos ht]
  split
  next heq => rw [hgs] at heq; cases heq
  next sd' heq =>
    rw [hgs] at heq
    injection heq with heq'
    subst heq'
    rw [if_pos hs, if_neg hne]

theorem waitLoop_failed (resp : Nat → PollHTTP) (maxWait fuel t k : Nat) (sd : StatusData)
    (hfuel : 0 < fuel) (ht : t < maxWait)
    (hgs : get_task_status (resp k) = some sd)
    (hf : sd.status = some "FAILED") :
    waitLoop resp maxWait fuel t k =
      { outcome := .exited 1 (failedExitMsg (sd.errorMessage.getD "Unknown")),
        pollsUsed := 1, sleeps := [] } := by
  obtain ⟨f, rfl⟩ : ∃ f, fuel = f + 1 := ⟨fuel - 1, by omega⟩
  simp only [waitLoop]
  rw [if_pos ht]
  split
  next heq => rw [hgs] at heq; cases heq
  next sd' heq =>
    rw [hgs] at heq
    injection heq with heq'
    subst heq'
    rw [if_neg (by rw [hf]; decide), if_pos hf]

theorem waitLoop_elapsed (resp : Nat → PollHTTP) (maxWait fuel t k : Nat)
    (ht : maxWait ≤ t) :
    waitLoop resp maxWait fuel t k =
      { outcome := .exited 1 (timeoutExitMsg maxWait), pollsUsed := 0, sleeps := [] } := by
  cases fuel with
  | zero => rfl
  | succ f =>
    simp only [waitLoop]
    rw [if_neg (by omega)]

theorem waitLoop_sleeps (resp : Nat → PollHTTP) (maxWait : Nat) :
    ∀ fuel t k d, d ∈ (waitLoop resp maxWait fuel t k).sleeps → d = poll_interval := by
  intro fuel
  induction fuel with
  | zero => intro t k d h; simp [waitLoop] at h
  | succ f ih =>
    intro t k d h
    simp only [waitLoop] at h
    by_cases ht : t < maxWait
    · rw [if_pos ht] at h
      split at h
      · simp only [resumeAfter, List.mem_cons] at h
        rcases h with h | h
        · exact h
        · exact ih _ _ _ h
      · split at h
        · split at h
          · simp only [resumeAfter, List.mem_cons] at h
            rcases h with h | h
            · exact h
            · exact ih _ _ _ h
          · simp at h
        · split at h
          · simp at h
          · split at h
            · simp only [resumeAfter, List.mem_cons] at h
              rcases h with h | h
              · exact h
              · exact ih _ _ _ h
            · simp only [resumeAfter, List.mem_cons] at h
              rcases h with h | h
              · exact h
              · exact ih _ _ _ h
    · rw [if_neg ht] at h
      simp at h

/-- The timeout diagnostic is provably distinct from every remote-failure
diagnostic: the two printed lines differ at their fourth character. -/
theorem timeout_ne_failed (maxWait : Nat) (e : String) :
    timeoutExitMsg maxWait ≠ failedExitMsg e := by
  unfold timeoutExitMsg failedExitMsg
  intro h
  have h2 := congrArg (fun s => s.data[3]?) h
  simp only [String.data_append, List.append_assoc] at h2
  rw [List.getElem?_append_left (by decide), List.getElem?_append_left (by decide)] at h2
  exact absurd h2 (by decide)

end TrapPolling

namespace HardTrap

theorem waitLoop_first_success (resp : Nat → PollHTTP) (maxWait fuel t k : Nat) (sd : StatusData)
    (hfuel : 0 < fuel) (ht : t < maxWait)
    (hgs : get_task_status (resp k) = some sd)
    (hs : sd.status = some "SUCCESS") :
    waitLoop resp maxWait fuel t k =
      { outcome := .returned sd.responseData, pollsUsed := 1, sleeps := [] } := by
  obtain ⟨f, rfl⟩ : ∃ f, fuel = f + 1 := ⟨fuel - 1, by omega⟩
  simp only [waitLoop]
  rw [if_pos ht]
  split
  next heq => rw [hgs] at heq; cases heq
  next sd' heq =>
    rw [hgs] at heq
    injection heq with heq'
    subst heq'
    rw [if_pos hs]

theorem waitLoop_sleeps_five (resp : Nat → PollHTTP) (maxWait : Nat) :
    ∀ fuel t k d, d ∈ (waitLoop resp maxWait fuel t k).sleeps → d = poll_interval := by
  intro fuel
  induction fuel with
  | zero => intro t k d h; simp [waitLoop] at h
  | succ f ih =>
    intro t k d h
    simp only [waitLoop] at h
    by_cases ht : t < maxWait
    · rw [if_pos ht] at h
      split at h
      · simp only [resumeAfter, List.mem_cons] at h
        rcases h with h | h
        · exact h
        · exact ih _ _ _ h
      · split at h
        · simp at h
        · split at h
          · simp at h
          · split at h
            · simp only [resumeAfter, List.mem_cons] at h
              rcases h with h | h
              · exact h
              · exact ih _ _ _ h
            · simp only [resumeAfter, List.mem_cons] at h
              rcases h with h | h
              · exact h
              · exact ih _ _ _ h
    · rw [if_neg ht] at h
      simp at h

/-- `WEBHOOK_PORT = 8877` — a module-level constant of generate_hard_trap.py
(line 23); `main` passes it to `start_webhook_server`. -/
def WEBHOOK_PORT : Nat := 8877

end HardTrap

namespace TrapPolling

/-- A run of the polling script whose first `n` poll responses are
non-terminal and whose response `n` is a `SUCCESS` with a non-empty artifact
list returns that list after `n + 1` status requests and `n` sleeps. -/
theorem run_success (resp : Nat → PollHTTP) (maxWait n : Nat) (sd : StatusData)
    (hcont : ∀ i, i < n → nonTerminalPoll (resp i) = true)
    (hgs : get_task_status (resp n) = some sd)
    (hs : sd.status = some "SUCCESS") (hne : sd.responseData ≠ [])
    (hbudget : poll_interval * n < maxWait) :
    wait_for_completion resp maxWait =
      { outcome := .returned sd.responseData, pollsUsed := n + 1,
        sleeps := List.replicate n poll_interval } := by
  have hpi : poll_interval = 10 := rfl
  unfold wait_for_completion
  rw [waitLoop_skip resp maxWait n maxWait 0 0
    (fun i hi => by simpa using hcont i hi)
    (fun i hi => by rw [hpi] at hbudget ⊢; omega)
    (by rw [hpi] at hbudget; omega)]
  rw [waitLoop_success resp maxWait (maxWait - n) (0 + poll_interval * n) (0 + n) sd
    (by rw [hpi] at hbudget; omega)
    (by rw [hpi] at hbudget ⊢; omega)
    (by simpa using hgs) hs hne]
  simp [Nat.add_comm]

end TrapPolling

/-- Concrete artifact, status payloads and poll sequences used as witness
inputs. -/
def art1 : Artifact :=
  { audio_url := some "http://x/a.mp3", title := none, duration := none, tags := none }

def sdPending : StatusData :=
  { status := some "PENDING", responseData := [], errorMessage := none }

def sdSuccessOne : StatusData :=
  { status := some "SUCCESS", responseData := [art1], errorMessage := none }

def sdSuccessEmpty : StatusData :=
  { status := some "SUCCESS", responseData := [], errorMessage := none }

def sdFailed : StatusData :=
  { status := some "FAILED", responseData := [], errorMessage := some "quota exceeded" }

def pendingResp : Nat → PollHTTP := fun _ => .reply (some 200) (some sdPending)

def seqC1 : Nat → PollHTTP := fun k =>
  if k = 0 then .reply (some 200) (some sdSuccessEmpty) else .reply (some 200) (some sdSuccessOne)

def seqC4 : Nat → PollHTTP := fun k =>
  if k = 0 then .reply (some 200) (some sdPending) else .reply (some 200) (some sdSuccessOne)

def seqC5 : Nat → PollHTTP := fun k =>
  if k = 0 then .netError else .reply (some 200) (some sdFailed)

def seqC6 : Nat → PollHTTP := fun k =>
  if k = 0 then .reply (some 500) none else .reply (some 200) (some sdSuccessOne)

/-- Claim C4: for every sequence of poll responses whose first `n` responses
are non-terminal and whose response `n` is a `SUCCESS` carrying a non-empty
artifact list, the polling script's `wait_for_completion` returns exactly that
artifact list immediately, having issued exactly `n + 1` status requests — so
no further request after the terminal one — and slept once per earlier poll. -/
theorem claim_C4 (resp : Nat → PollHTTP) (maxWait n : Nat) (sd : StatusData)
    (hcont : ∀ i, i < n → nonTerminalPoll (resp i) = true)
    (hgs : get_task_status (resp n) = some sd)
    (hs : sd.status = some "SUCCESS") (hne : sd.responseData ≠ [])
    (hbudget : TrapPolling.poll_interval * n < maxWait) :
    TrapPolling.wait_for_completion resp maxWait =
      { outcome := .returned sd.responseData, pollsUsed := n + 1,
        sleeps := List.replicate n TrapPolling.poll_interval } :=
  TrapPolling.run_success resp maxWait n sd hcont hgs hs hne hbudget

/-- Witness for C4: one PENDING poll, then SUCCESS with one artifact, within a
60 second budget. -/
theorem claim_C4_witness :
    (∀ i, i < 1 → nonTerminalPoll (seqC4 i) = true) ∧
    get_task_status (seqC4 1) = some sdSuccessOne ∧
    sdSuccessOne.status = some "SUCCESS" ∧ sdSuccessOne.responseData ≠ [] ∧
    TrapPolling.poll_interval * 1 < 60 ∧
    TrapPolling.wait_for_completion seqC4 60 =
      { outcome := .returned [art1], pollsUsed := 2,
        sleeps := List.replicate 1 TrapPolling.poll_interval } :=
  ⟨by decide, by decide, by decide, by decide, by decide,
   claim_C4 seqC4 60 1 sdSuccessOne (by decide) (by decide) (by decide) (by decide) (by decide)⟩

/-- Claim C5: the first `FAILED` poll response terminates the run at once —
for every remaining budget — with exit status 1 and a failure message that
carries the remote `errorMessage` field verbatim, and no further status
request is issued (`pollsUsed = n + 1`). -/
theorem claim_C5 (resp : Nat → PollHTTP) (maxWait n : Nat) (sd : StatusData) (e : String)
    (hcont : ∀ i, i < n → nonTerminalPoll (resp i) = true)
    (hgs : get_task_status (resp n) = some sd)
    (hf : sd.status = some "FAILED") (he : sd.errorMessage = some e)
    (hbudget : TrapPolling.poll_interval * n < maxWait) :
    TrapPolling.wait_for_completion resp maxWait =
      { outcome := .exited 1 (TrapPolling.failedExitMsg e), pollsUsed := n + 1,
        sleeps := List.replicate n TrapPolling.poll_interval } ∧
    TrapPolling.failedExitMsg e = "\n❌ Generation failed: " ++ e := by
  refine ⟨?_, rfl⟩
  have hpi : TrapPolling.poll_interval = 10 := rfl
  unfold TrapPolling.wait_for_completion
  rw [TrapPolling.waitLoop_skip resp maxWait n maxWait 0 0
    (fun i hi => by simpa using hcont i hi)
    (fun i hi => by rw [hpi] at hbudget ⊢; omega)
    (by rw [hpi] at hbudget; omega)]
  rw [TrapPolling.waitLoop_failed resp maxWait (maxWait - n)
    (0 + TrapPolling.poll_interval * n) (0 + n) sd
    (by rw [hpi] at hbudget; omega)
    (by rw [hpi] at hbudget ⊢; omega)
    (by simpa using hgs) hf]
  simp [he, Nat.add_comm]

/-- Witness for C5: a transient network error, then FAILED with a remote
error message, with most of a 100 second budget remaining. -/
theorem claim_C5_witness :
    (∀ i, i < 1 → nonTerminalPoll (seqC5 i) = true) ∧
    get_task_status (seqC5 1) = some sdFailed ∧
    sdFailed.status = some "FAILED" ∧ sdFailed.errorMessage = some "quota exceeded" ∧
    TrapPolling.poll_interval * 1 < 100 ∧
    (TrapPolling.wait_for_completion seqC5 100 =
      { outcome := .exited 1 (TrapPolling.failedExitMsg "quota exceeded"), pollsUsed := 2,
        sleeps := List.replicate 1 TrapPolling.poll_interval } ∧
     TrapPolling.failedExitMsg "quota exceeded" =
       "\n❌ Generation failed: " ++ "quota exceeded") :=
  ⟨by decide, by decide, by decide, by decide, by decide,
   claim_C5 seqC5 100 1 sdFailed "quota exceeded"
     (by decide) (by decide) (by decide) (by decide) (by decide)⟩

/-- Claim C3: when every poll response over the whole `max_wait` window is
non-terminal, the run exits as a timeout: exit status 1 with the timeout
message, which is provably different from every remote-failure message, and
no artifact list is returned. -/
theorem claim_C3 (resp : Nat → PollHTTP) (maxWait : Nat)
    (hall : ∀ i, i < (maxWait + 9) / 10 → nonTerminalPoll (resp i) = true) :
    TrapPolling.wait_for_completion resp maxWait =
      { outcome := .exited 1 (TrapPolling.timeoutExitMsg maxWait),
        pollsUsed := (maxWait + 9) / 10,
        sleeps := List.replicate ((maxWait + 9) / 10) TrapPolling.poll_interval } ∧
    (∀ e, TrapPolling.timeoutExitMsg maxWait ≠ TrapPolling.failedExitMsg e) ∧
    (∀ L, Outcome.exited 1 (TrapPolling.timeoutExitMsg maxWait) ≠ Outcome.returned L) := by
  refine ⟨?_, fun e => TrapPolling.timeout_ne_failed maxWait e, fun L h => by cases h⟩
  have hpi : TrapPolling.poll_interval = 10 := rfl
  unfold TrapPolling.wait_for_completion
  rw [TrapPolling.waitLoop_skip resp maxWait ((maxWait + 9) / 10) maxWait 0 0
    (fun i hi => by simpa using hall i hi)
    (fun i hi => by rw [hpi]; omega)
    (by omega)]
  rw [TrapPolling.waitLoop_elapsed resp maxWait _ _ _ (by rw [hpi]; omega)]
  simp

/-- Witness for C3: every poll reports PENDING over a 25 second window. -/
theorem claim_C3_witness :
    (∀ i, i < (25 + 9) / 10 → nonTerminalPoll (pendingResp i) = true) ∧
    (TrapPolling.wait_for_completion pendingResp 25 =
      { outcome := .exited 1 (TrapPolling.timeoutExitMsg 25),
        pollsUsed := (25 + 9) / 10,
        sleeps := List.replicate ((25 + 9) / 10) TrapPolling.poll_interval } ∧
     (∀ e, TrapPolling.timeoutExitMsg 25 ≠ TrapPolling.failedExitMsg e) ∧
     (∀ L, Outcome.exited 1 (TrapPolling.timeoutExitMsg 25) ≠ Outcome.returned L)) :=
  ⟨by decide, claim_C3 pendingResp 25 (by decide)⟩

/-- Claim C6: an iteration whose status query fails (network error, non-200
API code, or missing data) or reports an unmapped status neither aborts nor
produces a failure result: it performs exactly one `poll_interval` sleep and
continues, leaving the final outcome to the remaining iterations; and the
query-failure cases indeed collapse to "no status data". -/
theorem claim_C6 (resp : Nat → PollHTTP) (maxWait fuel t k : Nat)
    (hfuel : 0 < fuel) (ht : t < maxWait)
    (htr : transientOrUnmapped (resp k) = true) :
    TrapPolling.waitLoop resp maxWait fuel t k =
      resumeAfter TrapPolling.poll_interval
        (TrapPolling.waitLoop resp maxWait (fuel - 1) (t + TrapPolling.poll_interval) (k + 1)) ∧
    (∀ r, (resumeAfter TrapPolling.poll_interval r).outcome = r.outcome) ∧
    get_task_status PollHTTP.netError = none ∧
    (∀ c d, c ≠ some 200 → get_task_status (PollHTTP.reply c d) = none) := by
  refine ⟨?_, fun r => rfl, rfl, fun c d hc => by simp [get_task_status, hc]⟩
  obtain ⟨f, rfl⟩ : ∃ f, fuel = f + 1 := ⟨fuel - 1, by omega⟩
  simpa using
    TrapPolling.waitLoop_step resp maxWait f t k ht (transientOrUnmapped_nonTerminal _ htr)

/-- Witness for C6: a non-200 API reply at the first iteration of a run with
time and fuel remaining. -/
theorem claim_C6_witness :
    0 < 50 ∧ 0 < 50 ∧ transientOrUnmapped (seqC6 0) = true ∧
    (TrapPolling.waitLoop seqC6 50 50 0 0 =
      resumeAfter TrapPolling.poll_interval
        (TrapPolling.waitLoop seqC6 50 (50 - 1) (0 + TrapPolling.poll_interval) (0 + 1)) ∧
     (∀ r, (resumeAfter TrapPolling.poll_interval r).outcome = r.outcome) ∧
     get_task_status PollHTTP.netError = none ∧
     (∀ c d, c ≠ some 200 → get_task_status (PollHTTP.reply c d) = none)) :=
  ⟨by decide, by decide, by decide,
   claim_C6 seqC6 50 50 0 0 (by decide) (by decide) (by decide)⟩

/-- Claim C1 (amended): in the polling script a `SUCCESS` whose artifact list
is empty is never terminal (it is a non-terminal poll), and a run whose first
`n` responses are non-terminal — which may include empty `SUCCESS` responses —
followed by a `SUCCESS` with a non-empty list produces exactly one terminal
return carrying that later list.  The callback script's `wait_for_completion`,
in contrast, returns on the first `SUCCESS` response immediately, whatever its
artifact list. -/
theorem claim_C1 (resp resp2 : Nat → PollHTTP) (maxWait mw2 n : Nat) (sd sd2 : StatusData)
    (hcont : ∀ i, i < n → nonTerminalPoll (resp i) = true)
    (hgs : get_task_status (resp n) = some sd)
    (hs : sd.status = some "SUCCESS") (hne : sd.responseData ≠ [])
    (hbudget : TrapPolling.poll_interval * n < maxWait)
    (hgs2 : get_task_status (resp2 0) = some sd2)
    (hs2 : sd2.status = some "SUCCESS") (hmw2 : 0 < mw2) :
    (∀ h sdh, get_task_status h = some sdh → sdh.status = some "SUCCESS" →
       sdh.responseData = [] → nonTerminalPoll h = true) ∧
    TrapPolling.wait_for_completion resp maxWait =
      { outcome := .returned sd.responseData, pollsUsed := n + 1,
        sleeps := List.replicate n TrapPolling.poll_interval } ∧
    HardTrap.wait_for_completion resp2 mw2 =
      { outcome := .returned sd2.responseData, pollsUsed := 1, sleeps := [] } := by
  refine ⟨?_, TrapPolling.run_success resp maxWait n sd hcont hgs hs hne hbudget, ?_⟩
  · intro h sdh hgsh hsh hempty
    unfold nonTerminalPoll
    rw [hgsh]
    show (if sdh.status = some "SUCCESS" then decide (sdh.responseData = [])
      else decide (sdh.status ≠ some "FAILED")) = true
    rw [if_pos hsh]
    exact decide_eq_true hempty
  · exact HardTrap.waitLoop_first_success resp2 mw2 mw2 0 0 sd2 hmw2 hmw2 hgs2 hs2

/-- Witness for C1 (amended): the sequence [SUCCESS empty, SUCCESS one
artifact] — the polling script skips the empty SUCCESS and returns the later
list, while the callback script returns at once. -/
theorem claim_C1_witness :
    (∀ i, i < 1 → nonTerminalPoll (seqC1 i) = true) ∧
    get_task_status (seqC1 1) = some sdSuccessOne ∧
    TrapPolling.poll_interval * 1 < 60 ∧
    get_task_status (seqC1 0) = some sdSuccessEmpty ∧ 0 < 300 ∧
    ((∀ h sdh, get_task_status h = some sdh → sdh.status = some "SUCCESS" →
        sdh.responseData = [] → nonTerminalPoll h = true) ∧
     TrapPolling.wait_for_completion seqC1 60 =
       { outcome := .returned [art1], pollsUsed := 2,
         sleeps := List.replicate 1 TrapPolling.poll_interval } ∧
     HardTrap.wait_for_completion seqC1 300 =
       { outcome := .returned [], pollsUsed := 1, sleeps := [] }) :=
  ⟨by decide, by decide, by decide, by decide, by decide,
   claim_C1 seqC1 seqC1 60 300 1 sdSuccessOne sdSuccessEmpty
     (by decide) (by decide) (by decide) (by decide) (by decide)
     (by decide) (by decide) (by decide)⟩

/-- Claim C1 counterexample: on the poll sequence [SUCCESS with empty artifact
list, SUCCESS with one artifact], the callback script's `wait_for_completion`
treats the empty SUCCESS as terminal: it returns the empty artifact list after
the first poll and never observes the later non-empty one — contradicting the
claim that both implementations keep polling past an empty SUCCESS. -/
theorem claim_C1_counterexample :
    HardTrap.wait_for_completion seqC1 300 =
      { outcome := .returned [], pollsUsed := 1, sleeps := [] } ∧
    get_task_status (seqC1 0) = some sdSuccessEmpty ∧
    sdSuccessEmpty.status = some "SUCCESS" ∧ sdSuccessEmpty.responseData = [] ∧
    get_task_status (seqC1 1) = some sdSuccessOne ∧
    sdSuccessOne.responseData = [art1] := by decide

/-- Claim C9 (amended): the interval slept between consecutive polls is the
hardcoded script constant — 10 seconds in the polling script and 5 seconds in
the callback script — not a caller-supplied field; `max_wait` is a defaulted
parameter (360 and 300 seconds) and the listener port is the module constant
8877. -/
theorem claim_C9 (resp resp2 : Nat → PollHTTP) (mw mw2 d d2 : Nat)
    (h1 : d ∈ (TrapPolling.wait_for_completion resp mw).sleeps)
    (h2 : d2 ∈ (HardTrap.wait_for_completion resp2 mw2).sleeps) :
    d = TrapPolling.poll_interval ∧ d2 = HardTrap.poll_interval ∧
    TrapPolling.poll_interval = 10 ∧ HardTrap.poll_interval = 5 ∧
    TrapPolling.max_wait_default = 360 ∧ HardTrap.max_wait_default = 300 ∧
    HardTrap.WEBHOOK_PORT = 8877 :=
  ⟨TrapPolling.waitLoop_sleeps resp mw mw 0 0 d h1,
   HardTrap.waitLoop_sleeps_five resp2 mw2 mw2 0 0 d2 h2, rfl, rfl, rfl, rfl, rfl⟩

/-- Witness for C9 (amended): concrete runs of both loops exhibit the two
hardcoded sleep intervals. -/
theorem claim_C9_witness :
    10 ∈ (TrapPolling.wait_for_completion pendingResp 25).sleeps ∧
    5 ∈ (HardTrap.wait_for_completion pendingResp 25).sleeps ∧
    (10 = TrapPolling.poll_interval ∧ 5 = HardTrap.poll_interval ∧
     TrapPolling.poll_interval = 10 ∧ HardTrap.poll_interval = 5 ∧
     TrapPolling.max_wait_default = 360 ∧ HardTrap.max_wait_default = 300 ∧
     HardTrap.WEBHOOK_PORT = 8877) :=
  ⟨by decide, by decide,
   claim_C9 pendingResp pendingResp 25 25 10 5 (by decide) (by decide)⟩

/-- Claim C9 counterexample: the two scripts sleep 10 s and 5 s respectively
on identical caller inputs — the interval is a per-script hardcoded constant,
not a caller-controllable configuration field (the completion-wait functions
take no such parameter). -/
theorem claim_C9_counterexample :
    (TrapPolling.wait_for_completion pendingResp 25).sleeps = [10, 10, 10] ∧
    (HardTrap.wait_for_completion pendingResp 12).sleeps = [5, 5, 5] ∧
    TrapPolling.poll_interval ≠ HardTrap.poll_interval := by decide

/-- Parsed body of an inbound callback notification, as read by
`wait_for_callback`: `data.get("code")`, `data.get("data", {})` and
`data.get("msg", "Unknown error")` (generate_hard_trap.py lines 325-334). -/
structure CallbackPayload where
  code : Option Int
  dataField : Option (List Artifact)
  msg : Option String
deriving DecidableEq, Repr

/-- The process-wide `callback_data` store of generate_hard_trap.py
(lines 26-30): flags `received`, `data` and `error`. -/
structure CallbackData where
  received : Bool
  data : Option CallbackPayload
  error : Option String
deriving DecidableEq, Repr

def initCallbackData : CallbackData := { received := false, data := none, error := none }

/-- One inbound HTTP POST to the listener, given together with the result of
`json.loads` on its body: well-formed (a parsed payload) or malformed (the
exception text of the failed parse). -/
inductive Inbound where
  | wellFormed (p : CallbackPayload)
  | malformed (excMsg : String)
deriving DecidableEq, Repr

/-- `WebhookHandler.do_POST` (generate_hard_trap.py lines 40-65): on a parsed
body, set `received` and store the data, answer 200; on a parse failure,
record the error text, answer 500.  Returns the new store and the HTTP status
code sent to the sender. -/
def do_POST (st : CallbackData) : Inbound → CallbackData × Nat
  | .wellFormed p => ({ st with received := true, data := some p }, 200)
  | .malformed e => ({ st with error := some e }, 500)

/-- The serve loop of `start_webhook_server` (generate_hard_trap.py lines
284-287): `while not callback_data["received"]: server.handle_request()`.
Requests are handled one at a time; as soon as `received` is set the loop
stops and every remaining inbound request goes unhandled.  Returns the final
store and the list of response codes actually sent. -/
def runServer (st : CallbackData) : List Inbound → CallbackData × List Nat
  | [] => (st, [])
  | r :: rs =>
    if st.received then (st, [])
    else
      let stepped := do_POST st r
      let rest := runServer stepped.1 rs
      (rest.1, stepped.2 :: rest.2)

/-- The payload of the first well-formed notification of a sequence, if any. -/
def firstWellFormed : List Inbound → Option CallbackPayload
  | [] => none
  | .wellFormed p :: _ => some p
  | .malformed _ :: rs => firstWellFormed rs

theorem runServer_received (rs : List Inbound) (st : CallbackData)
    (h : st.received = true) : runServer st rs = (st, []) := by
  cases rs with
  | nil => rfl
  | cons r rs => simp [runServer, h]

theorem runServer_first (rs : List Inbound) : ∀ st : CallbackData, st.received = false →
    (runServer st rs).1.received = (firstWellFormed rs).isSome ∧
    (runServer st rs).1.data =
      (match firstWellFormed rs with | some p => some p | none => st.data) := by
  induction rs with
  | nil => intro st h; simp [runServer, firstWellFormed, h]
  | cons r rs ih =>
    intro st h
    cases r with
    | wellFormed p =>
      simp only [runServer, h, Bool.false_eq_true, if_false, do_POST]
      rw [runServer_received rs _ rfl]
      simp [firstWellFormed]
    | malformed e =>
      simp only [runServer, h, Bool.false_eq_true, if_false, do_POST, firstWellFormed]
      have := ih { st with error := some e } (by simpa using h)
      simpa [h] using this

theorem runServer_fulfilled (rs : List Inbound) (p : CallbackPayload)
    (h : firstWellFormed rs = some p) :
    (runServer initCallbackData rs).1.data = some p ∧
    (runServer initCallbackData rs).1.received = true := by
  have hfst := runServer_first rs initCallbackData rfl
  rw [h] at hfst
  exact ⟨hfst.2, by simp [hfst.1]⟩

theorem firstWellFormed_append (l1 l2 : List Inbound) (p : CallbackPayload)
    (h : firstWellFormed l1 = some p) : firstWellFormed (l1 ++ l2) = some p := by
  induction l1 with
  | nil => cases h
  | cons r rs ih =>
    cases r with
    | wellFormed q => simpa [firstWellFormed] using h
    | malformed e =>
      simp only [firstWellFormed] at h
      simpa [firstWellFormed] using ih h

/-- Outcome of `wait_for_callback`: a returned payload, a `sys.exit`, or a
crash of the waiter by an uncaught exception (reading `None.get` when
`received` is set without data — unreachable for mailboxes produced by the
handler, kept for faithfulness). -/
inductive CbOutcome where
  | returned (d : List Artifact)
  | exited (code : Nat) (msg : String)
  | crashed (excName : String)
deriving DecidableEq, Repr

/-- Message printed when the callback reports a non-200 code
(generate_hard_trap.py line 333). -/
def cbFailedMsg (m : String) : String := "\n❌ Generation failed: " ++ m

/-- Message printed when no callback arrives within `max_wait`
(generate_hard_trap.py line 342). -/
def cbTimeoutMsg (maxWait : Nat) : String :=
  "\n❌ Timeout: No callback received in " ++ toString maxWait ++ " seconds"

/-- The busy-wait loop of `wait_for_callback` (generate_hard_trap.py lines
317-344): each second, check the mailbox; once `received`, return the `data`
field on code 200, exit on any other code; time out after `max_wait` seconds.
`mbox t` is the mailbox state the waiter observes at second `t`. -/
def waitCbLoop (mbox : Nat → CallbackData) (maxWait : Nat) : Nat → Nat → CbOutcome
  | 0, _ => .exited 1 (cbTimeoutMsg maxWait)
  | fuel + 1, t =>
    if t < maxWait then
      if (mbox t).received then
        match (mbox t).data with
        | some p =>
          if p.code = some 200 then .returned (p.dataField.getD [])
          else .exited 1 (cbFailedMsg (p.msg.getD "Unknown error"))
        | none => .crashed "AttributeError"
      else waitCbLoop mbox maxWait fuel (t + 1)
    else .exited 1 (cbTimeoutMsg maxWait)

/-- `wait_for_callback` of generate_hard_trap.py; the loop sleeps one second
per iteration, so `maxWait` units of fuel cover the whole window. -/
def wait_for_callback (mbox : Nat → CallbackData) (maxWait : Nat) : CbOutcome :=
  waitCbLoop mbox maxWait maxWait 0

/-- A mailbox history in which the serve loop has processed all inbound
traffic by wall-clock second `T`: the waiter observes the initial store
before `T` and the final store from `T` on. -/
def stepSchedule (T : Nat) (final : CallbackData) (t : Nat) : CallbackData :=
  if t < T then initCallbackData else final

theorem waitCbLoop_skip (mbox : Nat → CallbackData) (maxWait : Nat) :
    ∀ n fuel t, (∀ i, i < n → (mbox (t + i)).received = false) →
      (∀ i, i < n → t + i < maxWait) → n ≤ fuel →
      waitCbLoop mbox maxWait fuel t = waitCbLoop mbox maxWait (fuel - n) (t + n) := by
  intro n
  induction n with
  | zero => intro fuel t _ _ _; simp
  | succ m ih =>
    intro fuel t hrec hsteps hfuel
    obtain ⟨f, rfl⟩ : ∃ f, fuel = f + 1 := ⟨fuel - 1, by omega⟩
    have ht : t < maxWait := by have := hsteps 0 (by omega); simpa using this
    have hr : (mbox t).received = false := by have := hrec 0 (by omega); simpa using this
    have step : waitCbLoop mbox maxWait (f + 1) t = waitCbLoop mbox maxWait f (t + 1) := by
      simp only [waitCbLoop]
      rw [if_pos ht, hr]
      simp
    rw [step, ih f (t + 1)
      (fun i hi => by
        have := hrec (i + 1) (by omega)
        rwa [show t + (i + 1) = t + 1 + i by omega] at this)
      (fun i hi => by have := hsteps (i + 1) (by omega); omega)
      (by omega)]
    have e1 : f + 1 - (m + 1) = f - m := by omega
    have e2 : t + (m + 1) = t + 1 + m := by omega
    rw [e1, e2]

theorem waitCbLoop_read (mbox : Nat → CallbackData) (maxWait fuel t : Nat)
    (p : CallbackPayload) (hfuel : 0 < fuel) (ht : t < maxWait)
    (hr : (mbox t).received = true) (hd : (mbox t).data = some p) :
    waitCbLoop mbox maxWait fuel t =
      if p.code = some 200 then .returned (p.dataField.getD [])
      else .exited 1 (cbFailedMsg (p.msg.getD "Unknown error")) := by
  obtain ⟨f, rfl⟩ : ∃ f, fuel = f + 1 := ⟨fuel - 1, by omega⟩
  simp only [waitCbLoop]
  rw [if_pos ht, hr, hd]
  simp

/-- A waiter observing the mailbox after the server has fulfilled it with a
code-200 payload `p` before the timeout returns `p`'s data field. -/
theorem waiter_returns (final : CallbackData) (p : CallbackPayload) (T maxWait : Nat)
    (hT : T < maxWait) (hrec : final.received = true) (hdata : final.data = some p)
    (hcode : p.code = some 200) :
    wait_for_callback (stepSchedule T final) maxWait = .returned (p.dataField.getD []) := by
  unfold wait_for_callback
  rw [waitCbLoop_skip (stepSchedule T final) maxWait T maxWait 0
    (fun i hi => by simp [stepSchedule, hi, initCallbackData])
    (fun i hi => by omega)
    (by omega)]
  rw [waitCbLoop_read (stepSchedule T final) maxWait (maxWait - T) (0 + T) p
    (by omega) (by omega)
    (by simpa [stepSchedule] using hrec)
    (by simpa [stepSchedule] using hdata)]
  rw [if_pos hcode]

/-- Claim C2: the mailbox is write-once per tracking operation: for every
inbound sequence whose first well-formed notification carries `p`, the final
store holds exactly `p`, the mailbox is fulfilled, appending any further
traffic — including more valid notifications — never replaces `p`, and the
waiter surfaces `p`'s content. -/
theorem claim_C2 (reqs more : List Inbound) (p : CallbackPayload) (T maxWait : Nat)
    (hfw : firstWellFormed reqs = some p)
    (hT : T < maxWait) (hcode : p.code = some 200) :
    (runServer initCallbackData reqs).1.data = some p ∧
    (runServer initCallbackData reqs).1.received = true ∧
    (runServer initCallbackData (reqs ++ more)).1.data = some p ∧
    wait_for_callback (stepSchedule T (runServer initCallbackData reqs).1) maxWait =
      .returned (p.dataField.getD []) := by
  obtain ⟨hdata, hrec⟩ := runServer_fulfilled reqs p hfw
  refine ⟨hdata, hrec, ?_, waiter_returns _ p T maxWait hT hrec hdata hcode⟩
  exact (runServer_fulfilled (reqs ++ more) p (firstWellFormed_append reqs more p hfw)).1

def payloadOk : CallbackPayload :=
  { code := some 200, dataField := some [art1], msg := some "All generated successfully." }

def payloadLate : CallbackPayload :=
  { code := some 200, dataField := some [], msg := none }

/-- Witness for C2: two valid notifications; the first one wins and a third
late one changes nothing. -/
theorem claim_C2_witness :
    firstWellFormed [Inbound.wellFormed payloadOk, Inbound.wellFormed payloadLate] =
      some payloadOk ∧
    (2 : Nat) < 10 ∧ payloadOk.code = some 200 ∧
    ((runServer initCallbackData
        [Inbound.wellFormed payloadOk, Inbound.wellFormed payloadLate]).1.data = some payloadOk ∧
     (runServer initCallbackData
        [Inbound.wellFormed payloadOk, Inbound.wellFormed payloadLate]).1.received = true ∧
     (runServer initCallbackData
        ([Inbound.wellFormed payloadOk, Inbound.wellFormed payloadLate] ++
          [Inbound.wellFormed payloadLate])).1.data = some payloadOk ∧
     wait_for_callback
        (stepSchedule 2 (runServer initCallbackData
          [Inbound.wellFormed payloadOk, Inbound.wellFormed payloadLate]).1) 10 =
       .returned (payloadOk.dataField.getD [])) :=
  ⟨by decide, by decide, by decide,
   claim_C2 [Inbound.wellFormed payloadOk, Inbound.wellFormed payloadLate]
     [Inbound.wellFormed payloadLate] payloadOk 2 10 (by decide) (by decide) (by decide)⟩

/-- Claim C7: a malformed notification draws a 500 response, records the
parse error locally, and leaves the mailbox unfulfilled (`received` stays
false, no data stored); a later well-formed notification still fulfills the
mailbox and its content is returned by the waiter within the timeout. -/
theorem claim_C7 (e : String) (rest : List Inbound) (p : CallbackPayload) (T maxWait : Nat)
    (hfw : firstWellFormed rest = some p) (hcode : p.code = some 200) (hT : T < maxWait) :
    do_POST initCallbackData (.malformed e) =
      ({ received := false, data := none, error := some e }, 500) ∧
    (runServer initCallbackData (.malformed e :: rest)).2.head? = some 500 ∧
    (runServer initCallbackData (.malformed e :: rest)).1.data = some p ∧
    (runServer initCallbackData (.malformed e :: rest)).1.received = true ∧
    wait_for_callback
        (stepSchedule T (runServer initCallbackData (.malformed e :: rest)).1) maxWait =
      .returned (p.dataField.getD []) := by
  have hfw' : firstWellFormed (.malformed e :: rest) = some p := by
    simpa [firstWellFormed] using hfw
  obtain ⟨hdata, hrec⟩ := runServer_fulfilled (.malformed e :: rest) p hfw'
  refine ⟨rfl, ?_, hdata, hrec, waiter_returns _ p T maxWait hT hrec hdata hcode⟩
  simp [runServer, initCallbackData, do_POST]

/-- Witness for C7: a malformed body, then a valid notification. -/
theorem claim_C7_witness :
    firstWellFormed [Inbound.wellFormed payloadOk] = some payloadOk ∧
    payloadOk.code = some 200 ∧ (3 : Nat) < 20 ∧
    (do_POST initCallbackData (.malformed "Expecting value") =
      ({ received := false, data := none, error := some "Expecting value" }, 500) ∧
     (runServer initCallbackData
        (.malformed "Expecting value" :: [Inbound.wellFormed payloadOk])).2.head? = some 500 ∧
     (runServer initCallbackData
        (.malformed "Expecting value" :: [Inbound.wellFormed payloadOk])).1.data =
          some payloadOk ∧
     (runServer initCallbackData
        (.malformed "Expecting value" :: [Inbound.wellFormed payloadOk])).1.received = true ∧
     wait_for_callback
        (stepSchedule 3 (runServer initCallbackData
          (.malformed "Expecting value" :: [Inbound.wellFormed payloadOk])).1) 20 =
       .returned (payloadOk.dataField.getD [])) :=
  ⟨by decide, by decide, by decide,
   claim_C7 "Expecting value" [Inbound.wellFormed payloadOk] payloadOk 3 20
     (by decide) (by decide) (by decide)⟩

/-- The `HTTPServer` object created by `start_webhook_server`
(generate_hard_trap.py lines 280-292): constructing it binds the listening
socket; only an explicit `server_close()` would unbind it. -/
structure HTTPServerModel where
  port : Nat
  socketOpen : Bool
deriving DecidableEq, Repr

/-- `start_webhook_server(port)`: creates the server — binding the listening
socket — and starts the daemon serve thread; it returns the server object
with the socket open. -/
def start_webhook_server (port : Nat) : HTTPServerModel :=
  { port := port, socketOpen := true }

/-- The callback-mode tracking operation of `main` in generate_hard_trap.py
(lines 353-371): start the webhook listener, let the background serve loop
process the inbound notifications, and wait for the callback.  The source
contains no `server_close()` or `shutdown()` call on any path — neither after
`wait_for_callback` returns nor before either `sys.exit(1)` — so the server
object is returned exactly as `start_webhook_server` created it. -/
def runCallbackOperation (port : Nat) (reqs : List Inbound) (T maxWait : Nat) :
    CbOutcome × HTTPServerModel :=
  let server := start_webhook_server port
  let final := (runServer initCallbackData reqs).1
  (wait_for_callback (stepSchedule T final) maxWait, server)

/-- Claim C8 (amended): the program never closes the listening socket on any
exit path of a callback-mode tracking operation; when the operation completes
the server object is exactly the one `start_webhook_server` created, its
socket still open (on the timeout and remote-failure paths the process
terminates without an explicit close, and on success execution continues with
the socket open). -/
theorem claim_C8 (port : Nat) (reqs : List Inbound) (T maxWait : Nat) :
    (runCallbackOperation port reqs T maxWait).2.socketOpen = true ∧
    (runCallbackOperation port reqs T maxWait).2 = start_webhook_server port :=
  ⟨rfl, rfl⟩

/-- Claim C8 counterexample: a successful callback-mode run — the operation
completes with a returned artifact list, yet the listening socket is still
open, contradicting the claim that the socket is closed on every exit path. -/
theorem claim_C8_counterexample :
    (runCallbackOperation 8877 [Inbound.wellFormed payloadOk] 1 10).1 =
      CbOutcome.returned [art1] ∧
    (runCallbackOperation 8877 [Inbound.wellFormed payloadOk] 1 10).2.socketOpen = true := by
  decide

namespace R2R

/-- The persona record of r2r.py `SunoPersona` (lines 10-37).  Field types
follow what the constructor guarantees (`instrumental_elements or []` and
`tags or []` store lists; `created_at` is a timestamp string; `track_ids`
starts empty). -/
structure SunoPersona where
  name : String
  style : String
  model : String
  bpm : Option Int
  key : Option String
  vocal_characteristics : Option String
  instrumental_elements : List String
  mixing_notes : Option String
  tags : List String
  description : Option String
  created_at : String
  track_ids : List String
deriving DecidableEq, Repr

/-- Python `x or []` applied to an argument that is `None` or a list:
`None or []` is `[]`, `[] or []` is `[]`, and a non-empty list is itself —
which coincides with `Option.getD` on this representation. -/
def pyOrNil (o : Option (List String)) : List String := o.getD []

/-- `SunoPersona.__init__` (r2r.py lines 13-37); `now` stands for the
`datetime.now().isoformat()` timestamp taken at construction. -/
def SunoPersona.init (name style model : String) (bpm : Option Int)
    (key vocal_characteristics : Option String)
    (instrumental_elements : Option (List String)) (mixing_notes : Option String)
    (tags : Option (List String)) (description : Option String)
    (now : String) : SunoPersona :=
  { name := name, style := style, model := model, bpm := bpm, key := key,
    vocal_characteristics := vocal_characteristics,
    instrumental_elements := pyOrNil instrumental_elements,
    mixing_notes := mixing_notes,
    tags := pyOrNil tags,
    description := description,
    created_at := now,
    track_ids := [] }

/-- The dictionary produced by `to_dict` and consumed by `from_dict`; fields
that `from_dict` reads with `dict.get` are optional (`none` standing for an
absent key, or — where the stored value may itself be `None` — a null). -/
structure PersonaDict where
  name : String
  style : String
  model : Option String
  bpm : Option Int
  key : Option String
  vocal_characteristics : Option String
  instrumental_elements : Option (List String)
  mixing_notes : Option String
  tags : Option (List String)
  description : Option String
  created_at : Option String
  track_ids : Option (List String)
deriving DecidableEq, Repr

/-- `SunoPersona.to_dict` (r2r.py lines 39-54): every field is emitted. -/
def SunoPersona.to_dict (p : SunoPersona) : PersonaDict :=
  { name := p.name, style := p.style, model := some p.model, bpm := p.bpm,
    key := p.key, vocal_characteristics := p.vocal_characteristics,
    instrumental_elements := some p.instrumental_elements,
    mixing_notes := p.mixing_notes, tags := some p.tags,
    description := p.description, created_at := some p.created_at,
    track_ids := some p.track_ids }

/-- `SunoPersona.from_dict` (r2r.py lines 56-73): construct via the class
constructor with `dict.get` defaults (`"V4"` for model, `[]` for the lists),
then overwrite `created_at` (keeping the fresh timestamp when the key is
absent) and `track_ids` (default `[]`). -/
def SunoPersona.from_dict (d : PersonaDict) (now : String) : SunoPersona :=
  let persona := SunoPersona.init d.name d.style (d.model.getD "V4") d.bpm d.key
    d.vocal_characteristics (some (d.instrumental_elements.getD []))
    d.mixing_notes (some (d.tags.getD [])) d.description now
  { persona with
    created_at := d.created_at.getD persona.created_at,
    track_ids := d.track_ids.getD [] }

/-- `SunoPersona.add_track` (r2r.py lines 100-103): append the id only when it
is not already present. -/
def SunoPersona.add_track (p : SunoPersona) (track_id : String) : SunoPersona :=
  if track_id ∈ p.track_ids then p
  else { p with track_ids := p.track_ids ++ [track_id] }

end R2R

/-- Claim C10: persona serialization round-trips — `from_dict (to_dict p)`
restores every field of `p`, whatever fresh timestamp the reconstruction
uses — and `add_track` is idempotent on an already-present id; consequently
`track_ids` stays duplicate-free under `add_track`, starting from a freshly
constructed persona whose `track_ids` is empty. -/
theorem claim_C10 (p : R2R.SunoPersona) (now tid : String) :
    R2R.SunoPersona.from_dict (R2R.SunoPersona.to_dict p) now = p ∧
    (tid ∈ p.track_ids → R2R.SunoPersona.add_track p tid = p) ∧
    (p.track_ids.Nodup → (R2R.SunoPersona.add_track p tid).track_ids.Nodup) ∧
    (∀ n s m b k v ie mn tg de nw,
      (R2R.SunoPersona.init n s m b k v ie mn tg de nw).track_ids = []) := by
  refine ⟨?_, ?_, ?_, fun n s m b k v ie mn tg de nw => rfl⟩
  · cases p
    simp [R2R.SunoPersona.from_dict, R2R.SunoPersona.to_dict, R2R.SunoPersona.init,
      R2R.pyOrNil]
  · intro h
    simp [R2R.SunoPersona.add_track, h]
  · intro h
    by_cases hm : tid ∈ p.track_ids
    · simpa [R2R.SunoPersona.add_track, hm] using h
    · simp only [R2R.SunoPersona.add_track, hm, if_false]
      rw [List.nodup_append]
      refine ⟨h, List.nodup_singleton tid, ?_⟩
      intro x hx hmem
      simp at hmem
      subst hmem
      exact hm hx

def personaW : R2R.SunoPersona :=
  { name := "Drill", style := "Russian drill-rap", model := "V4", bpm := some 142,
    key := some "D Minor", vocal_characteristics := none,
    instrumental_elements := ["808"], mixing_notes := none, tags := ["drill"],
    description := none, created_at := "2025-01-01T00:00:00", track_ids := ["track-1"] }

/-- Witness for C10: a concrete persona round-trips, re-adding its existing
track id changes nothing, and adding a new one keeps `track_ids`
duplicate-free. -/
theorem claim_C10_witness :
    "track-1" ∈ personaW.track_ids ∧ personaW.track_ids.Nodup ∧
    R2R.SunoPersona.add_track personaW "track-1" = personaW ∧
    (R2R.SunoPersona.add_track personaW "track-2").track_ids.Nodup ∧
    R2R.SunoPersona.from_dict (R2R.SunoPersona.to_dict personaW) "2025-02-02" = personaW :=
  ⟨by decide, by decide,
   (claim_C10 personaW "2025-02-02" "track-1").2.1 (by decide),
   (claim_C10 personaW "2025-02-02" "track-2").2.2.1 (by decide),
   (claim_C10 personaW "2025-02-02" "track-1").1⟩

end SunoApi
